import Mathlib

/-!
Verification of the FleetLink backend's availability-and-conflict engine.

This file is a shallow embedding of the JavaScript source:
  src/utils/rideCalculations.js  (interval algebra, duration estimator, time window check)
  src/routes/vehicles.js         (vehicle insert, availability resolve)
  src/routes/bookings.js         (booking commit, status update)
  src/models/Vehicle.js, src/models/Booking.js (schema validation rules)

Modelling conventions:
  - Instants and durations are `Int` milliseconds, exactly the unit of
    JavaScript's `Date.getTime()`.  The source keeps the ride duration in
    hours; every duration the estimator can produce is a whole number of
    hours or exactly 0.5 h, so we carry it as milliseconds
    (`hours * 3600000`; the 0.5 h floor is `1800000` ms) to stay in exact
    integer arithmetic.
  - Other JavaScript numbers (capacities, tyre counts) are `ℚ`.
  - Strings are Lean `String`s; we operate on `String.data` (the character
    list) so all string functions compute by structural recursion.
  - Database documents live in in-memory lists inside a `Ledger` record;
    MongoDB object ids are modelled as `Nat` drawn from fresh counters.
  - The HTTP layer's field-presence, ObjectId-format and date-parse checks
    are discharged by typing (requests carry already-decoded fields); the
    remaining validations are modelled faithfully, in source order.
-/

namespace FleetLink

/-- Booking status enum of src/models/Booking.js
(confirmed, in-progress, completed, cancelled). -/
inductive BookingStatus
  | confirmed
  | inProgress
  | completed
  | cancelled
deriving DecidableEq, Repr

/-- A vehicle document (src/models/Vehicle.js): name, capacityKg, tyres,
isActive (default true). -/
structure Vehicle where
  vid : Nat
  name : String
  capacityKg : ℚ
  tyres : ℚ
  isActive : Bool
deriving DecidableEq, Repr

/-- A booking document (src/models/Booking.js).  `estimatedRideDurationMs`
is the source's estimatedRideDurationHours scaled to milliseconds. -/
structure Booking where
  bid : Nat
  vehicleId : Nat
  customerId : String
  fromPincode : String
  toPincode : String
  startTime : Int
  endTime : Int
  estimatedRideDurationMs : Int
  status : BookingStatus
deriving DecidableEq, Repr

/-- The persistent state: vehicle and booking collections plus fresh-id
counters standing in for MongoDB ObjectId generation. -/
structure Ledger where
  vehicles : List Vehicle
  bookings : List Booking
  nextVehicleId : Nat
  nextBookingId : Nat
deriving DecidableEq, Repr

/-- The empty database. -/
def Ledger.empty : Ledger := ⟨[], [], 0, 0⟩

/-- One hour in milliseconds. -/
def hourMs : Int := 3600000

/-- Half an hour (the duration floor of calculateRideDuration) in
milliseconds. -/
def halfHourMs : Int := 1800000

/-- 365 days in milliseconds: the advance-booking window of
validateBookingTime (now + 365 * 24 * 60 * 60 * 1000). -/
def yearMs : Int := 31536000000

/-- src/utils/rideCalculations.js, doTimeRangesOverlap:
`return start1 < end2 && start2 < end1`. -/
def doTimeRangesOverlap (start1 end1 start2 end2 : Int) : Bool :=
  decide (start1 < end2) && decide (start2 < end1)

/-- src/utils/rideCalculations.js, calculateEndTime:
`new Date(startTime.getTime() + durationHours * 60 * 60 * 1000)`.
Our durations are already in milliseconds, so the conversion factor is
folded into the duration. -/
def calculateEndTime (startTime durationMs : Int) : Int :=
  startTime + durationMs

/-- The `/^\d{6}$/` pincode test used by both routes and by
calculateRideDuration. -/
def isSixDigitPin (s : String) : Bool :=
  s.data.length == 6 && s.data.all Char.isDigit

/-- JavaScript `parseInt` restricted to all-digit strings (the only shape
that reaches it in the source). -/
def pinToNat (s : String) : Nat :=
  s.data.foldl (fun a c => a * 10 + (c.toNat - 48)) 0

/-- src/utils/rideCalculations.js, calculateRideDuration: throws when a
pincode is missing (falsy) or not exactly six digits; otherwise returns
`Math.max(Math.abs(toNum - fromNum) % 24, 0.5)` hours, here scaled to
milliseconds. -/
def calculateRideDuration (fromPincode toPincode : String) : Except String Int :=
  if fromPincode.data.isEmpty || toPincode.data.isEmpty then
    .error "Both from and to pincodes are required"
  else if !(isSixDigitPin fromPincode && isSixDigitPin toPincode) then
    .error "Pincodes must be exactly 6 digits"
  else
    .ok (max ((((pinToNat toPincode : Int) - (pinToNat fromPincode : Int)).natAbs % 24 : Int) * hourMs) halfHourMs)

/-- The duration value calculateRideDuration produces on validated
pincodes (milliseconds). -/
def rideDurationVal (fromPincode toPincode : String) : Int :=
  max ((((pinToNat toPincode : Int) - (pinToNat fromPincode : Int)).natAbs % 24 : Int) * hourMs) halfHourMs

/-- Result shape of validateBookingTime ({isValid, message}). -/
structure TimeValidation where
  isValid : Bool
  message : String
deriving DecidableEq, Repr

/-- src/utils/rideCalculations.js, validateBookingTime: rejects
`startTime <= now` and `startTime > now + 365 days`. -/
def validateBookingTime (now startTime : Int) : TimeValidation :=
  if startTime ≤ now then ⟨false, "Start time must be in the future"⟩
  else if startTime > now + yearMs then ⟨false, "Cannot book more than 1 year in advance"⟩
  else ⟨true, "Valid booking time"⟩

/-- The character set JavaScript's String.prototype.trim strips: the
ECMAScript WhiteSpace productions (tab, vertical tab, form feed, space,
no-break space, zero-width no-break space and the Unicode Zs separators)
and the LineTerminator productions (LF, CR, LS, PS). -/
def isJsWhitespace (c : Char) : Bool :=
  c == '\t' || c == '\n' || c.val == 11 || c.val == 12 || c == '\r' ||
  c == ' ' || c.val == 0xA0 || c.val == 0xFEFF || c.val == 0x1680 ||
  (0x2000 ≤ c.val && c.val ≤ 0x200A) || c.val == 0x2028 || c.val == 0x2029 ||
  c.val == 0x202F || c.val == 0x205F || c.val == 0x3000

/-- JavaScript String.prototype.trim (drop leading and trailing
ECMAScript whitespace), as used on vehicle names and customer ids. -/
def strTrim (s : String) : String :=
  ⟨((s.data.dropWhile isJsWhitespace).reverse.dropWhile isJsWhitespace).reverse⟩

/-- Outcome of POST /api/vehicles. -/
inductive VehicleInsertOutcome
  | created (v : Vehicle)
  | validationError (msg : String)
deriving DecidableEq, Repr

/-- POST /api/vehicles (src/routes/vehicles.js lines 12-62) followed by the
mongoose vehicleSchema validation (src/models/Vehicle.js): the route
rejects missing (falsy) fields, then `vehicle.save()` enforces
non-empty trimmed name, name length ≤ 100, capacityKg in [1, 50000] and
tyres in [2, 18].  Type checks of the route are discharged by typing. -/
def insertVehicle (st : Ledger) (name : String) (capacityKg tyres : ℚ) :
    VehicleInsertOutcome × Ledger :=
  if name.data.isEmpty || capacityKg = 0 || tyres = 0 then
    (.validationError "Name, capacityKg, and tyres are required fields", st)
  else
    let nm := strTrim name
    if nm.data.isEmpty then (.validationError "Vehicle name is required", st)
    else if nm.data.length > 100 then
      (.validationError "Vehicle name cannot exceed 100 characters", st)
    else if capacityKg < 1 then (.validationError "Capacity must be at least 1 kg", st)
    else if capacityKg > 50000 then (.validationError "Capacity cannot exceed 50,000 kg", st)
    else if tyres < 2 then (.validationError "Vehicle must have at least 2 tyres", st)
    else if tyres > 18 then (.validationError "Vehicle cannot have more than 18 tyres", st)
    else
      let v : Vehicle := ⟨st.nextVehicleId, nm, capacityKg, tyres, true⟩
      (.created v, { st with vehicles := v :: st.vehicles, nextVehicleId := st.nextVehicleId + 1 })

/-- Status is confirmed or in-progress: the bookings that occupy a
vehicle (the `status: { $in: ['confirmed', 'in-progress'] }` filter). -/
def Booking.isActiveStatus (b : Booking) : Bool :=
  b.status == .confirmed || b.status == .inProgress

/-- The overlap query both routes issue against the bookings collection:
same vehicle, status in {confirmed, in-progress},
`startTime < qEnd` and `endTime > qStart`
(src/routes/vehicles.js lines 142-152, src/routes/bookings.js lines 78-87). -/
def findOverlappingBookings (st : Ledger) (vehicleId : Nat) (qStart qEnd : Int) :
    List Booking :=
  st.bookings.filter fun b =>
    b.vehicleId == vehicleId && b.isActiveStatus &&
    decide (b.startTime < qEnd) && decide (b.endTime > qStart)

/-- Availability query of GET /api/vehicles/available. -/
structure AvailQuery where
  capacityRequired : ℚ
  fromPincode : String
  toPincode : String
  startTime : Int
deriving DecidableEq, Repr

/-- Outcome of GET /api/vehicles/available. -/
inductive ResolveOutcome
  | validationError (msg : String)
  | results (estimatedRideDurationMs : Int) (availableVehicles : List Vehicle)
  | internalError
deriving DecidableEq, Repr

/-- GET /api/vehicles/available (src/routes/vehicles.js lines 68-188):
validates capacity > 0, six-digit pincodes and a future start, computes
duration and end time, filters active vehicles with enough capacity, and
keeps those with no overlapping active booking.  The source's early
return when no vehicle has enough capacity produces the same empty list
as the general path.  An estimator throw would be caught by the outer
handler and reported as a 500, modelled as `internalError`.  The handler
never writes to the database, which the return type makes explicit. -/
def resolve (now : Int) (st : Ledger) (q : AvailQuery) : ResolveOutcome :=
  if q.capacityRequired ≤ 0 then .validationError "capacityRequired must be a positive number"
  else if !(isSixDigitPin q.fromPincode && isSixDigitPin q.toPincode) then
    .validationError "Pincodes must be exactly 6 digits"
  else if q.startTime ≤ now then .validationError "Start time must be in the future"
  else
    match calculateRideDuration q.fromPincode q.toPincode with
    | .error _ => .internalError
    | .ok dur =>
      let qEnd := calculateEndTime q.startTime dur
      let eligible := st.vehicles.filter fun v =>
        decide (v.capacityKg ≥ q.capacityRequired) && v.isActive
      .results dur (eligible.filter fun v =>
        (findOverlappingBookings st v.vid q.startTime qEnd).isEmpty)

/-- Booking request body of POST /api/bookings. -/
structure BookingRequest where
  vehicleId : Nat
  fromPincode : String
  toPincode : String
  startTime : Int
  customerId : String
deriving DecidableEq, Repr

/-- The per-conflict diagnostic record of the 409 response:
id, startTime, endTime and the route string. -/
structure ConflictInfo where
  id : Nat
  startTime : Int
  endTime : Int
  route : String
deriving DecidableEq, Repr

/-- Outcome of POST /api/bookings. -/
inductive CommitOutcome
  | validationError (msg : String)
  | notFoundError
  | conflictError (conflictingBookings : List ConflictInfo)
  | created (b : Booking)
  | internalError
deriving DecidableEq, Repr

/-- The mapping applied to each conflicting booking in the 409 payload
(src/routes/bookings.js lines 96-101). -/
def conflictPayload (b : Booking) : ConflictInfo :=
  ⟨b.bid, b.startTime, b.endTime, b.fromPincode ++ " → " ++ b.toPincode⟩

/-- POST /api/bookings (src/routes/bookings.js lines 13-151): validates
pincodes and the booking-time window, requires an existing active
vehicle, computes duration and end time, re-checks overlap inside the
transaction and either reports the conflicting bookings (leaving the
state untouched) or inserts the new booking.  Field-presence, ObjectId
and date-format checks are discharged by typing; an estimator throw
would surface as a 500, modelled as `internalError`. -/
def commit (now : Int) (st : Ledger) (req : BookingRequest) : CommitOutcome × Ledger :=
  if !(isSixDigitPin req.fromPincode && isSixDigitPin req.toPincode) then
    (.validationError "Pincodes must be exactly 6 digits", st)
  else
    let tv := validateBookingTime now req.startTime
    if !tv.isValid then (.validationError tv.message, st)
    else if !(st.vehicles.any fun v => v.vid == req.vehicleId && v.isActive) then
      (.notFoundError, st)
    else
      match calculateRideDuration req.fromPincode req.toPincode with
      | .error _ => (.internalError, st)
      | .ok dur =>
        let bEnd := calculateEndTime req.startTime dur
        let conflicting := findOverlappingBookings st req.vehicleId req.startTime bEnd
        if !conflicting.isEmpty then
          (.conflictError (conflicting.map conflictPayload), st)
        else
          let b : Booking :=
            ⟨st.nextBookingId, req.vehicleId, strTrim req.customerId,
             req.fromPincode, req.toPincode, req.startTime, bEnd, dur, .confirmed⟩
          (.created b,
           { st with bookings := b :: st.bookings, nextBookingId := st.nextBookingId + 1 })

/-- Outcome of PATCH /api/bookings/:id/status. -/
inductive UpdateOutcome
  | validationError (msg : String)
  | notFoundError
  | updated (b : Booking)
deriving DecidableEq, Repr

/-- PATCH /api/bookings/:id/status (src/routes/bookings.js lines 275-319):
free-form status overwrite via findByIdAndUpdate; only enum membership
is checked (discharged by typing), no overlap re-validation. -/
def updateStatus (st : Ledger) (id : Nat) (newStatus : BookingStatus) :
    UpdateOutcome × Ledger :=
  match st.bookings.find? (fun b => b.bid == id) with
  | none => (.notFoundError, st)
  | some b =>
    (.updated { b with status := newStatus },
     { st with bookings := st.bookings.map fun x =>
        if x.bid == id then { x with status := newStatus } else x })

/-- One state-mutating operation of the engine, with the wall-clock time
a booking attempt observes. -/
inductive LedgerOp
  | addVehicle (name : String) (capacityKg tyres : ℚ)
  | book (now : Int) (req : BookingRequest)
  | setStatus (id : Nat) (newStatus : BookingStatus)
deriving DecidableEq, Repr

/-- State transition of one operation (the response is discarded). -/
def applyOp (st : Ledger) : LedgerOp → Ledger
  | .addVehicle n c t => (insertVehicle st n c t).2
  | .book now req => (commit now st req).2
  | .setStatus i s => (updateStatus st i s).2

/-- Run a sequence of operations from a state. -/
def applyOps (st : Ledger) (ops : List LedgerOp) : Ledger :=
  ops.foldl applyOp st

/-- A state is reachable when some operation sequence produces it from
the empty database. -/
def Reachable (st : Ledger) : Prop :=
  ∃ ops, applyOps Ledger.empty ops = st

/-- Two bookings overlap when their half-open time intervals do. -/
def bookingsOverlap (a b : Booking) : Bool :=
  doTimeRangesOverlap a.startTime a.endTime b.startTime b.endTime

/-- A pair of bookings is compatible unless they are distinct documents on
the same vehicle, both status-active, with overlapping intervals. -/
def pairCompatible (a b : Booking) : Bool :=
  !(a.bid != b.bid && a.vehicleId == b.vehicleId &&
    a.isActiveStatus && b.isActiveStatus && bookingsOverlap a b)

/-- The no-double-booking invariant, as an exhaustive pairwise scan over
the bookings collection. -/
def noDoubleBooking (st : Ledger) : Bool :=
  st.bookings.all fun a => st.bookings.all fun b => pairCompatible a b

/-- A setStatus step reactivates a booking when the targeted document is
currently completed or cancelled and the new status is confirmed or
in-progress. -/
def reactivates (st : Ledger) : LedgerOp → Bool
  | .setStatus i s =>
    (st.bookings.any fun b => b.bid == i && !b.isActiveStatus) &&
    (s == .confirmed || s == .inProgress)
  | _ => false

/-- A run never reactivates a completed or cancelled booking. -/
def noReactivationRun : Ledger → List LedgerOp → Bool
  | _, [] => true
  | st, op :: ops => !reactivates st op && noReactivationRun (applyOp st op) ops

/-- Proposition form of the pairwise no-double-booking scan. -/
def NoDouble (st : Ledger) : Prop :=
  ∀ a ∈ st.bookings, ∀ b ∈ st.bookings, pairCompatible a b = true

/-- A sample booking request: vehicle 0, pincodes one apart (1 h ride),
start at instant 1000 ms. -/
def sampleReq1 : BookingRequest := ⟨0, "110001", "110002", 1000, "customer-1"⟩

/-- A second request for the same vehicle and the same window. -/
def sampleReq2 : BookingRequest := ⟨0, "110001", "110002", 1000, "customer-2"⟩

/-- An operation sequence that cancels a booking, books the freed slot, and
then re-activates the cancelled booking via the status route. -/
def reactivationOps : List LedgerOp :=
  [.addVehicle "Truck" 1000 4,
   .book 0 sampleReq1,
   .setStatus 0 .cancelled,
   .book 0 sampleReq2,
   .setStatus 0 .confirmed]

/-- The same sequence without the final re-activation step. -/
def cancelOnlyOps : List LedgerOp :=
  [.addVehicle "Truck" 1000 4,
   .book 0 sampleReq1,
   .setStatus 0 .cancelled,
   .book 0 sampleReq2]

/-- A ledger holding one active vehicle and no bookings. -/
def sampleLedger : Ledger := ⟨[⟨0, "Truck", 1000, 4, true⟩], [], 1, 0⟩

/-- A ledger whose only vehicle is deactivated. -/
def inactiveLedger : Ledger := ⟨[⟨0, "Truck", 1000, 4, false⟩], [], 1, 0⟩

/-- A ledger with one confirmed booking on vehicle 0 over [1000, 3601000). -/
def bookedLedger : Ledger :=
  ⟨[⟨0, "Truck", 1000, 4, true⟩],
   [⟨0, 0, "customer-1", "110001", "110002", 1000, 3601000, 3600000, .confirmed⟩], 1, 1⟩

/-- A sample availability query matching sampleReq1's route and window. -/
def sampleQuery : AvailQuery := ⟨500, "110001", "110002", 1000⟩

/-- The acceptance condition of the vehicle schema: non-empty trimmed name
of at most 100 characters, capacityKg in [1, 50000], tyres in [2, 18]. -/
@[reducible] def vehicleInsertOk (name : String) (c t : ℚ) : Prop :=
  (strTrim name).data ≠ [] ∧ (strTrim name).data.length ≤ 100 ∧
  1 ≤ c ∧ c ≤ 50000 ∧ 2 ≤ t ∧ t ≤ 18

/-! ### Helper lemmas -/

theorem sixDigit_not_empty {s : String} (h : isSixDigitPin s = true) :
    s.data.isEmpty = false := by
  unfold isSixDigitPin at h
  simp only [Bool.and_eq_true] at h
  obtain ⟨h1, _⟩ := h
  have h6 : s.data.length = 6 := by simpa using h1
  cases hd : s.data with
  | nil => rw [hd] at h6; simp at h6
  | cons a l => rfl

theorem calculateRideDuration_ok (f t : String)
    (hf : isSixDigitPin f = true) (ht : isSixDigitPin t = true) :
    calculateRideDuration f t = .ok (rideDurationVal f t) := by
  unfold calculateRideDuration rideDurationVal
  simp [sixDigit_not_empty hf, sixDigit_not_empty ht, hf, ht]

theorem noDoubleBooking_iff (st : Ledger) :
    noDoubleBooking st = true ↔ NoDouble st := by
  simp [noDoubleBooking, NoDouble, List.all_eq_true]

theorem pairCompatible_iff (a b : Booking) :
    pairCompatible a b = true ↔
      (a.bid ≠ b.bid → a.vehicleId = b.vehicleId → a.isActiveStatus = true →
        b.isActiveStatus = true → bookingsOverlap a b = false) := by
  unfold pairCompatible
  cases hab : a.bid != b.bid <;>
    cases hv : a.vehicleId == b.vehicleId <;>
      cases ha : a.isActiveStatus <;>
        cases hb : b.isActiveStatus <;>
          cases ho : bookingsOverlap a b <;>
            simp_all [bne_iff_ne, beq_iff_eq]

theorem insertVehicle_bookings (st : Ledger) (n : String) (c t : ℚ) :
    ((insertVehicle st n c t).2).bookings = st.bookings := by
  simp only [insertVehicle]
  repeat' split
  all_goals rfl

theorem commit_state (now : Int) (st : Ledger) (req : BookingRequest) :
    (commit now st req).2 = st ∨
    ∃ dur, findOverlappingBookings st req.vehicleId req.startTime
        (calculateEndTime req.startTime dur) = [] ∧
      (commit now st req).2 =
        { st with
          bookings :=
            ⟨st.nextBookingId, req.vehicleId, strTrim req.customerId,
              req.fromPincode, req.toPincode, req.startTime,
              calculateEndTime req.startTime dur, dur, .confirmed⟩ :: st.bookings,
          nextBookingId := st.nextBookingId + 1 } := by
  simp only [commit]
  split
  · exact Or.inl rfl
  · split
    · exact Or.inl rfl
    · split
      · exact Or.inl rfl
      · split
        · exact Or.inl rfl
        · rename_i dur heq
          split
          · exact Or.inl rfl
          · rename_i hne
            refine Or.inr ⟨dur, ?_, rfl⟩
            simp only [Bool.not_eq_true', Bool.not_eq_false] at hne
            simpa using hne

theorem commit_preserves (now : Int) (st : Ledger) (req : BookingRequest)
    (h : NoDouble st) : NoDouble (commit now st req).2 := by
  rcases commit_state now st req with heq | ⟨dur, hconf, heq⟩
  · rw [heq]; exact h
  · rw [heq]
    intro a ha b hb
    unfold findOverlappingBookings at hconf
    have hnil := List.filter_eq_nil_iff.mp hconf
    rcases List.mem_cons.mp ha with rfl | ha' <;> rcases List.mem_cons.mp hb with rfl | hb'
    · simp [pairCompatible]
    · rw [pairCompatible_iff]
      intro hbid hveh hact1 hact2
      by_contra hov
      rw [Bool.not_eq_false] at hov
      unfold bookingsOverlap doTimeRangesOverlap at hov
      simp only [Bool.and_eq_true, decide_eq_true_eq] at hov
      exact hnil b hb' (by
        simp only [Bool.and_eq_true, beq_iff_eq, decide_eq_true_eq]
        exact ⟨⟨⟨hveh.symm, hact2⟩, hov.2⟩, hov.1⟩)
    · rw [pairCompatible_iff]
      intro hbid hveh hact1 hact2
      by_contra hov
      rw [Bool.not_eq_false] at hov
      unfold bookingsOverlap doTimeRangesOverlap at hov
      simp only [Bool.and_eq_true, decide_eq_true_eq] at hov
      exact hnil a ha' (by
        simp only [Bool.and_eq_true, beq_iff_eq, decide_eq_true_eq]
        exact ⟨⟨⟨hveh, hact1⟩, hov.1⟩, hov.2⟩)
    · exact h a ha' b hb'

theorem upd_fields (i : Nat) (s : BookingStatus) (x : Booking) :
    (if x.bid == i then { x with status := s } else x).bid = x.bid ∧
    (if x.bid == i then { x with status := s } else x).vehicleId = x.vehicleId ∧
    (if x.bid == i then { x with status := s } else x).startTime = x.startTime ∧
    (if x.bid == i then { x with status := s } else x).endTime = x.endTime := by
  split <;> simp

theorem upd_active {st : Ledger} {i : Nat} {s : BookingStatus}
    (hre : reactivates st (.setStatus i s) = false)
    {x : Booking} (hx : x ∈ st.bookings)
    (h1 : (if x.bid == i then { x with status := s } else x).isActiveStatus = true) :
    x.isActiveStatus = true := by
  by_cases hxi : (x.bid == i) = true
  · rw [if_pos hxi] at h1
    have hs : (s == BookingStatus.confirmed || s == BookingStatus.inProgress) = true := h1
    unfold reactivates at hre
    rw [Bool.and_eq_false_iff] at hre
    rcases hre with hany | hs'
    · have := List.any_eq_false.mp hany x hx
      simp only [hxi, Bool.true_and, Bool.not_eq_true', Bool.not_eq_false] at this
      exact this
    · rw [hs'] at hs
      exact absurd hs (by simp)
  · rw [if_neg hxi] at h1
    exact h1

theorem updateStatus_preserves (st : Ledger) (i : Nat) (s : BookingStatus)
    (hre : reactivates st (.setStatus i s) = false) (h : NoDouble st) :
    NoDouble (updateStatus st i s).2 := by
  unfold updateStatus
  split
  · exact h
  · intro a' ha' b' hb'
    simp only at ha' hb'
    obtain ⟨a, ha, rfl⟩ := List.mem_map.mp ha'
    obtain ⟨b, hb, rfl⟩ := List.mem_map.mp hb'
    rw [pairCompatible_iff]
    intro hbid hveh hact1 hact2
    obtain ⟨ha1, ha2, ha3, ha4⟩ := upd_fields i s a
    obtain ⟨hb1, hb2, hb3, hb4⟩ := upd_fields i s b
    rw [ha1, hb1] at hbid
    rw [ha2, hb2] at hveh
    have hov := (pairCompatible_iff a b).mp (h a ha b hb) hbid hveh
      (upd_active hre ha hact1) (upd_active hre hb hact2)
    unfold bookingsOverlap at hov ⊢
    rw [ha3, ha4, hb3, hb4]
    exact hov

theorem applyOp_preserves (st : Ledger) (op : LedgerOp)
    (hre : reactivates st op = false) (h : NoDouble st) : NoDouble (applyOp st op) := by
  cases op with
  | addVehicle n c t =>
    intro a ha b hb
    rw [show (applyOp st (.addVehicle n c t)).bookings = st.bookings from
      insertVehicle_bookings st n c t] at ha hb
    exact h a ha b hb
  | book now req => exact commit_preserves now st req h
  | setStatus i s => exact updateStatus_preserves st i s hre h

theorem applyOps_preserves (ops : List LedgerOp) : ∀ st : Ledger, NoDouble st →
    noReactivationRun st ops = true → NoDouble (applyOps st ops) := by
  induction ops with
  | nil => intro st h _; exact h
  | cons op ops ih =>
    intro st h hrun
    simp only [noReactivationRun, Bool.and_eq_true, Bool.not_eq_true'] at hrun
    obtain ⟨h1, h2⟩ := hrun
    exact ih (applyOp st op) (applyOp_preserves st op h1 h) h2

/-! ### Claim theorems -/

/-- C1: refuted as stated.  The state reached by committing a booking,
cancelling it, committing an overlapping booking, and then re-activating
the cancelled one through the status route is reachable from the empty
ledger by commit and updateStatus operations, yet vehicle 0 ends up with
two confirmed bookings over the same half-open window, so the pairwise
non-overlap scan fails. -/
theorem C1_counterexample :
    Reachable (applyOps Ledger.empty reactivationOps) ∧
    noDoubleBooking (applyOps Ledger.empty reactivationOps) = false :=
  ⟨⟨reactivationOps, rfl⟩, by decide⟩

/-- C1 (amended): for every ledger state reachable from the empty ledger by
vehicle-insert, commit and updateStatus operations in which no updateStatus
step moves a completed or cancelled reservation back to confirmed or
in-progress, each vehicle's reservations with status in
{confirmed, in-progress} are pairwise non-overlapping under the half-open
rule. -/
theorem C1_amended_invariant (ops : List LedgerOp)
    (h : noReactivationRun Ledger.empty ops = true) :
    noDoubleBooking (applyOps Ledger.empty ops) = true :=
  (noDoubleBooking_iff _).mpr
    (applyOps_preserves ops Ledger.empty
      (by intro a ha; exact absurd ha (by simp [Ledger.empty])) h)

/-- Witness for C1 (amended): a concrete cancel-then-rebook run satisfies
the no-reactivation side condition and ends with no double booking. -/
theorem C1_amended_invariant_witness :
    noReactivationRun Ledger.empty cancelOnlyOps = true ∧
    noDoubleBooking (applyOps Ledger.empty cancelOnlyOps) = true :=
  ⟨by decide, C1_amended_invariant cancelOnlyOps (by decide)⟩

/-- C5: the overlap test returns true exactly when s1 < e2 and s2 < e1, and
an interval ending exactly at an instant never overlaps one starting at
that instant (back-to-back bookings never conflict). -/
theorem C5_overlap_characterization :
    (∀ s1 e1 s2 e2 : Int, doTimeRangesOverlap s1 e1 s2 e2 = true ↔ (s1 < e2 ∧ s2 < e1)) ∧
    (∀ s1 t e2 : Int, doTimeRangesOverlap s1 t t e2 = false) := by
  constructor
  · intro s1 e1 s2 e2
    simp [doTimeRangesOverlap]
  · intro s1 t e2
    simp [doTimeRangesOverlap]

/-- Witness for C5 at concrete instants: [0,1) does not overlap [1,2). -/
theorem C5_witness : doTimeRangesOverlap 0 1 1 2 = false :=
  C5_overlap_characterization.2 0 1 2

/-- C9: on two six-digit location codes the duration estimator succeeds and
returns at least half an hour (1800000 ms = 0.5 h), hence a positive
duration; determinism and purity hold by construction, the estimator being
a plain function of its two arguments. -/
theorem C9_duration_positive_floor (f t : String)
    (hf : isSixDigitPin f = true) (ht : isSixDigitPin t = true) :
    calculateRideDuration f t = .ok (rideDurationVal f t) ∧
    halfHourMs ≤ rideDurationVal f t ∧ 0 < rideDurationVal f t :=
  ⟨calculateRideDuration_ok f t hf ht, le_max_right _ _,
    lt_of_lt_of_le (by decide) (le_max_right _ _)⟩

/-- Witness for C9 on the pincodes of the repository's tests. -/
theorem C9_witness :
    isSixDigitPin "110001" = true ∧ isSixDigitPin "110002" = true ∧
    (calculateRideDuration "110001" "110002" = .ok (rideDurationVal "110001" "110002") ∧
      halfHourMs ≤ rideDurationVal "110001" "110002" ∧
      0 < rideDurationVal "110001" "110002") :=
  ⟨by decide, by decide,
   C9_duration_positive_floor "110001" "110002" (by decide) (by decide)⟩

/-- C6: commit rejects a start time that is not strictly in the future, or
more than 365 days ahead of now, with a ValidationError and an unchanged
ledger; and every strictly-future start at most 365 days ahead passes the
booking-time window check. -/
theorem C6_booking_time_window :
    (∀ (now : Int) (st : Ledger) (req : BookingRequest),
      (req.startTime ≤ now ∨ now + yearMs < req.startTime) →
      ∃ m, commit now st req = (.validationError m, st)) ∧
    (∀ now s : Int, now < s → s ≤ now + yearMs →
      validateBookingTime now s = ⟨true, "Valid booking time"⟩) := by
  constructor
  · intro now st req hbad
    by_cases hp : (isSixDigitPin req.fromPincode && isSixDigitPin req.toPincode) = true
    · have hiv : (validateBookingTime now req.startTime).isValid = false := by
        unfold validateBookingTime
        rcases hbad with hle | hgt
        · rw [if_pos hle]
        · by_cases hle2 : req.startTime ≤ now
          · rw [if_pos hle2]
          · rw [if_neg hle2, if_pos hgt]
      exact ⟨(validateBookingTime now req.startTime).message, by simp [commit, hp, hiv]⟩
    · simp only [Bool.not_eq_true] at hp
      exact ⟨"Pincodes must be exactly 6 digits", by simp [commit, hp]⟩
  · intro now s h1 h2
    unfold validateBookingTime
    rw [if_neg (not_le.mpr h1), if_neg (not_lt.mpr h2)]

/-- Witness for C6: a start in the past is rejected with the ledger
unchanged, and a start one second ahead passes the window check. -/
theorem C6_witness :
    ((sampleReq1.startTime ≤ 2000 ∨ (2000 : Int) + yearMs < sampleReq1.startTime) ∧
      ∃ m, commit 2000 sampleLedger sampleReq1 = (.validationError m, sampleLedger)) ∧
    ((0 : Int) < 1000 ∧ (1000 : Int) ≤ 0 + yearMs ∧
      validateBookingTime 0 1000 = ⟨true, "Valid booking time"⟩) :=
  ⟨⟨Or.inl (by decide),
    C6_booking_time_window.1 2000 sampleLedger sampleReq1 (Or.inl (by decide))⟩,
   by decide, by decide, C6_booking_time_window.2 0 1000 (by decide) (by decide)⟩

/-- C7: with valid pincodes and a valid start time, a vehicleId matching no
active vehicle (absent or deactivated) makes commit fail with NotFoundError
and leave the ledger unchanged. -/
theorem C7_vehicle_not_found (now : Int) (st : Ledger) (req : BookingRequest)
    (hpin : (isSixDigitPin req.fromPincode && isSixDigitPin req.toPincode) = true)
    (htime : (validateBookingTime now req.startTime).isValid = true)
    (hveh : (st.vehicles.any fun v => v.vid == req.vehicleId && v.isActive) = false) :
    commit now st req = (.notFoundError, st) := by
  simp [commit, hpin, htime, hveh]

/-- Witness for C7: booking against a deactivated vehicle fails with
NotFoundError. -/
theorem C7_witness :
    (isSixDigitPin sampleReq1.fromPincode && isSixDigitPin sampleReq1.toPincode) = true ∧
    (validateBookingTime 0 sampleReq1.startTime).isValid = true ∧
    (inactiveLedger.vehicles.any fun v => v.vid == sampleReq1.vehicleId && v.isActive) = false ∧
    commit 0 inactiveLedger sampleReq1 = (.notFoundError, inactiveLedger) :=
  ⟨by decide, by decide, by decide,
   C7_vehicle_not_found 0 inactiveLedger sampleReq1 (by decide) (by decide) (by decide)⟩

/-- C10: the duration estimator fails on any pair where either pincode is
not exactly six digits; and because both public operations validate the
six-digit shape before invoking it, the internal-error outcome (the 500 an
estimator throw would produce) is unreachable from commit and from
resolve. -/
theorem C10_estimator_throw_unreachable :
    (∀ f t : String, (isSixDigitPin f && isSixDigitPin t) = false →
      ∃ m, calculateRideDuration f t = Except.error m) ∧
    (∀ (now : Int) (st : Ledger) (req : BookingRequest),
      (commit now st req).1 ≠ .internalError) ∧
    (∀ (now : Int) (st : Ledger) (q : AvailQuery),
      resolve now st q ≠ .internalError) := by
  refine ⟨?_, ?_, ?_⟩
  · intro f t hft
    unfold calculateRideDuration
    split
    · exact ⟨_, rfl⟩
    · rw [hft]
      exact ⟨_, rfl⟩
  · intro now st req
    by_cases hp : (isSixDigitPin req.fromPincode && isSixDigitPin req.toPincode) = true
    · have hp' := hp
      simp only [Bool.and_eq_true] at hp'
      simp only [commit, hp, calculateRideDuration_ok req.fromPincode req.toPincode hp'.1 hp'.2,
        Bool.not_true]
      split
      · simp
      · split
        · simp
        · split
          · simp
          · split <;> simp
    · simp only [Bool.not_eq_true] at hp
      simp [commit, hp]
  · intro now st q
    by_cases hp : (isSixDigitPin q.fromPincode && isSixDigitPin q.toPincode) = true
    · have hp' := hp
      simp only [Bool.and_eq_true] at hp'
      simp only [resolve, hp, calculateRideDuration_ok q.fromPincode q.toPincode hp'.1 hp'.2,
        Bool.not_true]
      split
      · simp
      · split
        · simp
        · split <;> simp
    · simp only [Bool.not_eq_true] at hp
      simp [resolve, hp]
      split <;> simp

/-- Witness for C10: a five-digit pincode makes the estimator fail. -/
theorem C10_witness :
    (isSixDigitPin "12345" && isSixDigitPin "110001") = false ∧
    ∃ m, calculateRideDuration "12345" "110001" = Except.error m :=
  ⟨by decide, C10_estimator_throw_unreachable.1 "12345" "110001" (by decide)⟩

/-- C3: when commit reaches the conflict check and at least one active
reservation of the target vehicle overlaps the requested window, it fails
with ConflictError carrying id, start time, end time and route for every
such conflicting reservation, inserts nothing, and returns the ledger
exactly as it was. -/
theorem C3_conflict_reported (now : Int) (st : Ledger) (req : BookingRequest)
    (hpin : (isSixDigitPin req.fromPincode && isSixDigitPin req.toPincode) = true)
    (htime : (validateBookingTime now req.startTime).isValid = true)
    (hveh : (st.vehicles.any fun v => v.vid == req.vehicleId && v.isActive) = true)
    (hconf : findOverlappingBookings st req.vehicleId req.startTime
        (calculateEndTime req.startTime (rideDurationVal req.fromPincode req.toPincode)) ≠ []) :
    commit now st req =
      (.conflictError
        ((findOverlappingBookings st req.vehicleId req.startTime
            (calculateEndTime req.startTime
              (rideDurationVal req.fromPincode req.toPincode))).map conflictPayload),
       st) := by
  have hp' := hpin
  simp only [Bool.and_eq_true] at hp'
  simp [commit, hpin, htime, hveh,
    calculateRideDuration_ok req.fromPincode req.toPincode hp'.1 hp'.2, hconf]

/-- Witness for C3: booking an already-booked window yields the conflict
payload for the existing reservation and an unchanged ledger. -/
theorem C3_witness :
    (isSixDigitPin sampleReq2.fromPincode && isSixDigitPin sampleReq2.toPincode) = true ∧
    (validateBookingTime 0 sampleReq2.startTime).isValid = true ∧
    (bookedLedger.vehicles.any fun v => v.vid == sampleReq2.vehicleId && v.isActive) = true ∧
    findOverlappingBookings bookedLedger sampleReq2.vehicleId sampleReq2.startTime
      (calculateEndTime sampleReq2.startTime
        (rideDurationVal sampleReq2.fromPincode sampleReq2.toPincode)) ≠ [] ∧
    commit 0 bookedLedger sampleReq2 =
      (.conflictError
        ((findOverlappingBookings bookedLedger sampleReq2.vehicleId sampleReq2.startTime
            (calculateEndTime sampleReq2.startTime
              (rideDurationVal sampleReq2.fromPincode sampleReq2.toPincode))).map conflictPayload),
       bookedLedger) :=
  ⟨by decide, by decide, by decide, by decide,
   C3_conflict_reported 0 bookedLedger sampleReq2 (by decide) (by decide) (by decide) (by decide)⟩

/-- C4: resolve is read-only by construction (its result carries no state);
on a validated request it succeeds with the estimated duration and lists
exactly the vehicles that are active, have capacity at least the requested
capacity, and have no status-active reservation overlapping the requested
half-open window; when no vehicle qualifies the result is an empty success
list, not an error. -/
theorem C4_resolve_characterization (now : Int) (st : Ledger) (q : AvailQuery)
    (hcap : ¬ q.capacityRequired ≤ 0)
    (hpin : (isSixDigitPin q.fromPincode && isSixDigitPin q.toPincode) = true)
    (hstart : ¬ q.startTime ≤ now) :
    ∃ L, resolve now st q = .results (rideDurationVal q.fromPincode q.toPincode) L ∧
      ∀ v : Vehicle, v ∈ L ↔
        (v ∈ st.vehicles ∧ v.isActive = true ∧ q.capacityRequired ≤ v.capacityKg ∧
          findOverlappingBookings st v.vid q.startTime
            (calculateEndTime q.startTime (rideDurationVal q.fromPincode q.toPincode)) = []) := by
  have hp' := hpin
  simp only [Bool.and_eq_true] at hp'
  refine ⟨(st.vehicles.filter fun v =>
      decide (v.capacityKg ≥ q.capacityRequired) && v.isActive).filter
        (fun v => (findOverlappingBookings st v.vid q.startTime
          (calculateEndTime q.startTime
            (rideDurationVal q.fromPincode q.toPincode))).isEmpty), ?_, ?_⟩
  · simp [resolve, hcap, hpin, hstart,
      calculateRideDuration_ok q.fromPincode q.toPincode hp'.1 hp'.2]
  · intro v
    simp only [List.mem_filter, Bool.and_eq_true, decide_eq_true_eq, ge_iff_le,
      List.isEmpty_iff]
    tauto

/-- Witness for C4: on a ledger whose only vehicle is already booked over
the requested window, resolve succeeds with an empty list. -/
theorem C4_witness :
    ¬ sampleQuery.capacityRequired ≤ 0 ∧
    (isSixDigitPin sampleQuery.fromPincode && isSixDigitPin sampleQuery.toPincode) = true ∧
    ¬ sampleQuery.startTime ≤ (0 : Int) ∧
    ∃ L, resolve 0 bookedLedger sampleQuery =
        .results (rideDurationVal sampleQuery.fromPincode sampleQuery.toPincode) L ∧
      ∀ v : Vehicle, v ∈ L ↔
        (v ∈ bookedLedger.vehicles ∧ v.isActive = true ∧
          sampleQuery.capacityRequired ≤ v.capacityKg ∧
          findOverlappingBookings bookedLedger v.vid sampleQuery.startTime
            (calculateEndTime sampleQuery.startTime
              (rideDurationVal sampleQuery.fromPincode sampleQuery.toPincode)) = []) :=
  ⟨by decide, by decide, by decide,
   C4_resolve_characterization 0 bookedLedger sampleQuery (by decide) (by decide) (by decide)⟩

theorem strTrim_data_nil {s : String} (h : s.data.isEmpty = true) :
    (strTrim s).data = [] := by
  have hnil : s.data = [] := by
    cases hd : s.data with
    | nil => rfl
    | cons a l => rw [hd] at h; exact absurd h (by simp)
  simp [strTrim, hnil]

/-- C8: refuted as stated.  The vehicle ⟨"Truck", 60000 kg, 6 tyres⟩ has a
non-empty name, positive capacity and a tyre count inside [2,18], so the
claim requires insert to return the created vehicle, yet the schema also
caps capacityKg at 50000 and the insert is rejected. -/
theorem C8_counterexample :
    (insertVehicle Ledger.empty "Truck" 60000 6).1 =
      .validationError "Capacity cannot exceed 50,000 kg" ∧
    ∀ v, (insertVehicle Ledger.empty "Truck" 60000 6).1 ≠ .created v := by
  refine ⟨by decide, ?_⟩
  intro v h
  rw [(by decide : (insertVehicle Ledger.empty "Truck" 60000 6).1 =
    VehicleInsertOutcome.validationError "Capacity cannot exceed 50,000 kg")] at h
  exact VehicleInsertOutcome.noConfusion h

theorem insertVehicle_created_inv (st : Ledger) (name : String) (c t : ℚ) (v : Vehicle)
    (h : (insertVehicle st name c t).1 = .created v) :
    v = ⟨st.nextVehicleId, strTrim name, c, t, true⟩ ∧ vehicleInsertOk name c t := by
  simp only [insertVehicle] at h
  split at h
  · exact absurd h (by simp)
  · split at h
    · exact absurd h (by simp)
    · split at h
      · exact absurd h (by simp)
      · split at h
        · exact absurd h (by simp)
        · split at h
          · exact absurd h (by simp)
          · split at h
            · exact absurd h (by simp)
            · split at h
              · exact absurd h (by simp)
              · rename_i h1 h2 h3 h4 h5 h6 h7
                injection h with hv
                refine ⟨hv.symm, ?_, not_lt.mp h3, not_lt.mp h4, not_lt.mp h5,
                  not_lt.mp h6, not_lt.mp h7⟩
                intro hx
                exact h2 (by simp [hx])

theorem insertVehicle_created_of_ok (st : Ledger) (name : String) (c t : ℚ)
    (hok : vehicleInsertOk name c t) :
    (insertVehicle st name c t).1 =
      .created ⟨st.nextVehicleId, strTrim name, c, t, true⟩ := by
  obtain ⟨hn, hlen, hc1, hc2, ht1, ht2⟩ := hok
  have hne : name.data.isEmpty = false := by
    cases hd : name.data with
    | nil => exact absurd (strTrim_data_nil (by rw [hd]; rfl)) hn
    | cons a l => rfl
  have hg1 : (name.data.isEmpty || decide (c = 0) || decide (t = 0)) = false := by
    simp only [hne, Bool.false_or, Bool.or_eq_false_iff, decide_eq_false_iff_not]
    constructor
    · intro h0; rw [h0] at hc1; exact absurd hc1 (by norm_num)
    · intro h0; rw [h0] at ht1; exact absurd ht1 (by norm_num)
  simp only [insertVehicle, hg1, Bool.false_eq_true, if_false]
  rw [if_neg (by simpa [List.isEmpty_iff] using hn),
    if_neg (not_lt.mpr hlen), if_neg (not_lt.mpr hc1), if_neg (not_lt.mpr hc2),
    if_neg (not_lt.mpr ht1), if_neg (not_lt.mpr ht2)]

/-- C8 (amended): vehicle insert returns exactly the created vehicle when
the trimmed name is non-empty and at most 100 characters, the capacity
lies in [1, 50000] and the tyre count lies in [2, 18], and fails with
ValidationError exactly when one of those bounds is violated. -/
theorem C8_amended_insert_characterization (st : Ledger) (name : String) (c t : ℚ) :
    ((insertVehicle st name c t).1 =
        .created ⟨st.nextVehicleId, strTrim name, c, t, true⟩ ↔
      vehicleInsertOk name c t) ∧
    ((∃ m, (insertVehicle st name c t).1 = .validationError m) ↔
      ¬ vehicleInsertOk name c t) := by
  constructor
  · constructor
    · intro h
      exact (insertVehicle_created_inv st name c t _ h).2
    · exact insertVehicle_created_of_ok st name c t
  · constructor
    · rintro ⟨m, hm⟩ hok
      rw [insertVehicle_created_of_ok st name c t hok] at hm
      exact VehicleInsertOutcome.noConfusion hm
    · intro hnok
      cases h : (insertVehicle st name c t).1 with
      | created v => exact absurd (insertVehicle_created_inv st name c t v h).2 hnok
      | validationError m => exact ⟨m, rfl⟩

/-- Witness for C8 (amended): an in-bounds vehicle is created as returned,
and an over-capacity one fails with ValidationError. -/
theorem C8_amended_witness :
    (insertVehicle Ledger.empty "Truck" 1000 4).1 =
      .created ⟨0, strTrim "Truck", 1000, 4, true⟩ ∧
    ∃ m, (insertVehicle Ledger.empty "Truck" 60000 6).1 = .validationError m :=
  ⟨(C8_amended_insert_characterization Ledger.empty "Truck" 1000 4).1.mpr (by decide),
   (C8_amended_insert_characterization Ledger.empty "Truck" 60000 6).2.mpr (by decide)⟩

end FleetLink
